import Mathlib

set_option linter.unusedVariables false

/-!
Shallow embedding of the geocrime-ai core components and proofs about them:
the risk index calculator (`src/features/risk_engine.py`), the hotspot
clustering engine (`src/models/clustering_model.py`), the anomaly detector
(`src/models/anomaly_detector.py`) and the detect-anomalies endpoint
(`backend/api/__init__.py`).  Floats are modelled as rationals, numpy's
bounded random draw `np.random.uniform(0, 10)` as an explicit `jitter`
argument, and the filesystem used by `joblib.dump`/`joblib.load` as an
explicit association-list store.
-/

namespace GeoCrime

/-! ## Risk engine (`src/features/risk_engine.py`, class `RiskEngine`) -/

/-- The dictionary returned by `RiskEngine.calculate_score`: keys
`risk_score` (rounded to 2 decimals), `level`, `contributing_factors`, and
`timestamp` (modelled by the hour that was read from it, the only part the
computation uses). -/
structure RiskResult where
  risk_score : ℚ
  level : String
  contributing_factors : List String
  timestamp_hour : ℕ
deriving DecidableEq

/-- Python's `round` for floats rounds half to even (banker's rounding);
this is round-half-even of a rational to an integer. -/
def roundHalfEven (x : ℚ) : ℤ :=
  let f := ⌊x⌋
  let r := x - f
  if r < 1 / 2 then f
  else if 1 / 2 < r then f + 1
  else if f % 2 = 0 then f else f + 1

/-- `round(x, 2)` in Python: round to two decimal places, half to even. -/
def round2 (x : ℚ) : ℚ := (roundHalfEven (x * 100) : ℚ) / 100

/-- The temporal adjustment of `RiskEngine.calculate_score` (lines 30-37):
the pair (score increment, factors appended), driven by `timestamp.hour`.
`if 22 <= hour or hour <= 4: score += 25; factors.append("High risk: Late
night hours")`, `elif 18 <= hour < 22: score += 10; factors.append("Moderate
risk: Evening hours")`. -/
def temporalAdjustment (hour : ℕ) : ℚ × List String :=
  if 22 ≤ hour ∨ hour ≤ 4 then (25, ["High risk: Late night hours"])
  else if 18 ≤ hour ∧ hour < 22 then (10, ["Moderate risk: Evening hours"])
  else (0, [])

/-- The final (capped, pre-rounding) score of `RiskEngine.calculate_score`:
base 10, plus the temporal adjustment, plus the uniform draw in `[0,10)`,
capped with `score = min(score + np.random.uniform(0, 10), 100)`. -/
def finalScore (hour : ℕ) (jitter : ℚ) : ℚ :=
  min (10 + (temporalAdjustment hour).1 + jitter) 100

/-- `level = "Low"; if score > 75: level = "High"; elif score > 40:
level = "Moderate"` (lines 51-53). -/
def riskLevel (score : ℚ) : String :=
  if score > 75 then "High" else if score > 40 then "Moderate" else "Low"

set_option linter.unusedVariables false in
/-- `RiskEngine.calculate_score(lat, lon, timestamp)` with the random draw
made explicit as `jitter`.  `lat` and `lon` are accepted but unused: the
hotspot-proximity block (lines 39-46) is commented out in the source, so the
result depends only on `timestamp.hour` and the random draw. -/
def calculate_score (lat lon : ℚ) (hour : ℕ) (jitter : ℚ) : RiskResult :=
  { risk_score := round2 (finalScore hour jitter)
    level := riskLevel (finalScore hour jitter)
    contributing_factors := (temporalAdjustment hour).2
    timestamp_hour := hour }

/-! ### Helper lemmas about rounding and levels -/

theorem floor_le_roundHalfEven (x : ℚ) : ⌊x⌋ ≤ roundHalfEven x := by
  unfold roundHalfEven
  dsimp only
  split
  · exact le_refl _
  · split
    · omega
    · split <;> omega

theorem roundHalfEven_le_ceil (x : ℚ) : roundHalfEven x ≤ ⌈x⌉ := by
  unfold roundHalfEven
  dsimp only
  split
  · exact Int.floor_le_ceil x
  · rename_i h
    push_neg at h
    have hlt : (⌊x⌋ : ℚ) < x := by linarith
    have hceil : ⌊x⌋ + 1 ≤ ⌈x⌉ := by
      have := Int.lt_ceil.mpr hlt
      omega
    split
    · omega
    · split <;> omega

theorem round2_bounds (x : ℚ) (h0 : 0 ≤ x) (h1 : x ≤ 100) :
    0 ≤ round2 x ∧ round2 x ≤ 100 := by
  unfold round2
  constructor
  · have hfl : (0 : ℤ) ≤ ⌊x * 100⌋ := Int.floor_nonneg.mpr (by positivity)
    have := floor_le_roundHalfEven (x * 100)
    have hr : (0 : ℤ) ≤ roundHalfEven (x * 100) := le_trans hfl this
    have : (0 : ℚ) ≤ (roundHalfEven (x * 100) : ℚ) := by exact_mod_cast hr
    positivity
  · have hcl : ⌈x * 100⌉ ≤ (10000 : ℤ) := by
      apply Int.ceil_le.mpr
      push_cast
      nlinarith
    have := roundHalfEven_le_ceil (x * 100)
    have hr : roundHalfEven (x * 100) ≤ (10000 : ℤ) := le_trans this hcl
    have hq : (roundHalfEven (x * 100) : ℚ) ≤ 10000 := by exact_mod_cast hr
    linarith

theorem riskLevel_spec (s : ℚ) :
    (riskLevel s = "High" ↔ 75 < s) ∧
    (riskLevel s = "Moderate" ↔ 40 < s ∧ s ≤ 75) ∧
    (riskLevel s = "Low" ↔ s ≤ 40) := by
  unfold riskLevel
  split
  · rename_i h75
    refine ⟨⟨fun _ => h75, fun _ => rfl⟩, ?_, ?_⟩
    · constructor
      · intro h; exact absurd h (by decide)
      · rintro ⟨_, hle⟩; linarith
    · constructor
      · intro h; exact absurd h (by decide)
      · intro hle; linarith
  · rename_i h75
    push_neg at h75
    split
    · rename_i h40
      refine ⟨?_, ⟨fun _ => ⟨h40, h75⟩, fun _ => rfl⟩, ?_⟩
      · constructor
        · intro h; exact absurd h (by decide)
        · intro h; linarith
      · constructor
        · intro h; exact absurd h (by decide)
        · intro hle; linarith
    · rename_i h40
      push_neg at h40
      refine ⟨?_, ?_, ⟨fun _ => h40, fun _ => rfl⟩⟩
      · constructor
        · intro h; exact absurd h (by decide)
        · intro h; linarith
      · constructor
        · intro h; exact absurd h (by decide)
        · rintro ⟨hgt, _⟩; linarith

/-! ## Density-based clustering (sklearn `DBSCAN`, used by
`HotspotClusteringModel`).  A standard executable DBSCAN over rational
coordinate rows: neighbourhoods are points within euclidean distance `eps`
(compared via squared distances), core points have at least `min_samples`
neighbours (self included), clusters are grown from core points in input
order, unreachable points get label -1.  This models only the labelling
algorithm, not the estimator-level input validation sklearn wraps around it
(e.g. its ValueError on a 0-sample matrix): the theorems below use it solely
in positions where both sides of an equation apply it to identical data. -/

/-- Squared euclidean distance of two coordinate rows. -/
def sqDist (p q : List ℚ) : ℚ := (p.zipWith (fun a b => (a - b) * (a - b)) q).sum

/-- Indices of the points within distance `eps` of point `i`. -/
def regionQuery (eps : ℚ) (pts : List (List ℚ)) (i : ℕ) : List ℕ :=
  (List.range pts.length).filter
    (fun j => sqDist (pts.getD i []) (pts.getD j []) ≤ eps * eps)

/-- Grow cluster `cid` from a seed queue.  Labels: -2 unvisited, -1 noise,
`n ≥ 0` a cluster id.  `fuel` bounds the number of queue pops. -/
def expandCluster (eps : ℚ) (minPts : ℕ) (pts : List (List ℚ)) (cid : ℤ) :
    ℕ → List ℕ → Array ℤ → Array ℤ
  | 0, _, labels => labels
  | _ + 1, [], labels => labels
  | fuel + 1, i :: queue, labels =>
    if 0 ≤ labels.getD i (-2) then
      expandCluster eps minPts pts cid fuel queue labels
    else
      let labels := labels.setD i cid
      let nb := regionQuery eps pts i
      if minPts ≤ nb.length then
        expandCluster eps minPts pts cid fuel
          (queue ++ nb.filter (fun j => labels.getD j (-2) < 0)) labels
      else
        expandCluster eps minPts pts cid fuel queue labels

/-- One pass over the points in input order: unvisited non-core points
become noise, unvisited core points seed a new cluster. -/
def dbscanRun (eps : ℚ) (minPts : ℕ) (pts : List (List ℚ)) : Array ℤ :=
  let n := pts.length
  ((List.range n).foldl
    (fun (st : Array ℤ × ℤ) i =>
      if st.1.getD i (-2) ≠ -2 then st
      else if (regionQuery eps pts i).length < minPts then
        (st.1.setD i (-1), st.2)
      else
        (expandCluster eps minPts pts st.2 ((n + 1) * (n + 1)) [i] st.1, st.2 + 1))
    (Array.mkArray n (-2), 0)).1

/-- `DBSCAN(eps=eps, min_samples=minPts).fit_predict(pts)`: one label per
input row. -/
def dbscan (eps : ℚ) (minPts : ℕ) (pts : List (List ℚ)) : List ℤ :=
  (dbscanRun eps minPts pts).toList

/-! ## Hotspot clustering engine
(`src/models/clustering_model.py`, class `HotspotClusteringModel`). -/

/-- The `params` dict of `HotspotClusteringModel`: each key the constructor
reads via `.get(key, default)`, as optional fields. -/
structure Params where
  eps : Option ℚ := none
  min_samples : Option ℕ := none
  eps_spatial : Option ℚ := none
  eps_temporal : Option ℚ := none
  n_clusters : Option ℕ := none
deriving DecidableEq

/-- The sklearn estimator held in `self.model`: `DBSCAN(eps, min_samples)`
or `KMeans(n_clusters, random_state=42, n_init=10)`. -/
inductive FittedModel where
  | DBSCAN (eps : ℚ) (min_samples : ℕ)
  | KMeans (n_clusters : ℕ)
deriving DecidableEq

/-- In-memory state of a `HotspotClusteringModel`: `algorithm` (lowercased),
`params`, `model_path`, the `eps_spatial`/`eps_temporal` attributes (set only
by the st-dbscan branch of the constructor) and the estimator (`none` models
`self.model = None`, possible after `load` of metadata missing the key). -/
structure HotspotClusteringModel where
  algorithm : String
  params : Params
  model_path : String
  eps_spatial : Option ℚ
  eps_temporal : Option ℚ
  model : Option FittedModel
deriving DecidableEq

/-- Python's `str.lower()`: character-wise lowercasing (the same result as
`String.toLower`, defined over the character list so that it evaluates by
reduction). -/
def pyLower (s : String) : String := ⟨s.data.map Char.toLower⟩

/-- `HotspotClusteringModel.__init__(algorithm, params, model_path)`
(lines 17-39): lowercases the tag, reads parameters with defaults
(`eps` 0.01, `min_samples` 5, `eps_spatial` 0.01, `eps_temporal` 1.0,
`n_clusters` 5), builds the estimator, and raises
`ValueError(f"Unsupported algorithm: {self.algorithm}")` for any other
tag. -/
def HotspotClusteringModel.init (algorithm : String) (params : Params)
    (model_path : String) : Except String HotspotClusteringModel :=
  let alg := pyLower algorithm
  if alg = "dbscan" then
    Except.ok
      { algorithm := alg, params := params, model_path := model_path
        eps_spatial := none, eps_temporal := none
        model := some (.DBSCAN (params.eps.getD (1 / 100)) (params.min_samples.getD 5)) }
  else if alg = "st-dbscan" then
    let es := params.eps_spatial.getD (1 / 100)
    let et := params.eps_temporal.getD 1
    Except.ok
      { algorithm := alg, params := params, model_path := model_path
        eps_spatial := some es, eps_temporal := some et
        model := some (.DBSCAN es (params.min_samples.getD 5)) }
  else if alg = "kmeans" then
    Except.ok
      { algorithm := alg, params := params, model_path := model_path
        eps_spatial := none, eps_temporal := none
        model := some (.KMeans (params.n_clusters.getD 5)) }
  else
    Except.error ("Unsupported algorithm: " ++ alg)

/-- The st-dbscan branch of `HotspotClusteringModel.fit_predict`
(lines 48-60) on `[lat, lon, time]` rows: `coords = data[:, :2]`,
`time = data[:, 2]`, `scale_factor = eps_spatial / eps_temporal`,
`time_scaled = time * scale_factor`,
`st_data = column_stack((coords, time_scaled))`, then
`self.model.fit_predict(st_data)` where the estimator is
`DBSCAN(eps=eps_spatial, min_samples=min_samples)`. -/
def stFitPredict (eps_spatial eps_temporal : ℚ) (min_samples : ℕ)
    (data : List (ℚ × ℚ × ℚ)) : List ℤ :=
  let coords := data.map (fun r => (r.1, r.2.1))
  let time := data.map (fun r => r.2.2)
  let scale_factor := eps_spatial / eps_temporal
  let time_scaled := time.map (fun t => t * scale_factor)
  let st_data := (coords.zip time_scaled).map (fun c => [c.1.1, c.1.2, c.2])
  dbscan eps_spatial min_samples st_data

/-- Modelled from the spec's description of spatio-temporal density mode, for
comparison with `stFitPredict`: density-based clustering with radius
`eps_spatial` and the same `min_samples` run directly on the rescaled points
`[lat, lon, time * (eps_spatial / eps_temporal)]`. -/
def specSTDensity (eps_spatial eps_temporal : ℚ) (min_samples : ℕ)
    (data : List (ℚ × ℚ × ℚ)) : List ℤ :=
  dbscan eps_spatial min_samples
    (data.map (fun r => [r.1, r.2.1, r.2.2 * (eps_spatial / eps_temporal)]))

/-! ### Persistence (`save`/`load`, lines 73-92).  `joblib.dump` writes a
metadata dict to `model_path`; the filesystem is an association list from
paths to metadata, newest entry first. -/

/-- The metadata dict written by `save`; fields optional because `load`
reads them with `data.get(...)`. -/
structure Metadata where
  algorithm : Option String
  params : Option Params
  model : Option FittedModel
deriving DecidableEq

/-- The on-disk store for clustering models. -/
abbrev Store := List (String × Metadata)

/-- `HotspotClusteringModel.save` (lines 73-81): dump
`{"algorithm": self.algorithm, "params": self.params, "model": self.model}`
to `self.model_path`. -/
def HotspotClusteringModel.save (m : HotspotClusteringModel) (s : Store) : Store :=
  (m.model_path, ⟨some m.algorithm, some m.params, m.model⟩) :: s

/-- `HotspotClusteringModel.load` (lines 83-92): if the path exists,
restore `algorithm` (default `"dbscan"`), `params` (default `{}`) and
`model` (default `None`) from the metadata; otherwise only log a warning and
leave the object untouched. -/
def HotspotClusteringModel.load (m : HotspotClusteringModel) (s : Store) :
    HotspotClusteringModel :=
  match s.lookup m.model_path with
  | some d =>
      { m with algorithm := d.algorithm.getD "dbscan"
               params := d.params.getD {}
               model := d.model }
  | none => m

/-! ## Anomaly detector (`src/models/anomaly_detector.py`,
class `AnomalyDetector`). -/

/-- The sklearn `IsolationForest(contamination=..., random_state=42)`
estimator, by its constructor arguments. -/
structure IsoForest where
  contamination : ℚ
  random_state : ℕ
deriving DecidableEq

/-- In-memory state of an `AnomalyDetector`. -/
structure AnomalyDetector where
  model : IsoForest
  model_path : String
deriving DecidableEq

/-- `AnomalyDetector.__init__(contamination, model_path)` (lines 16-22). -/
def AnomalyDetector.init (contamination : ℚ) (model_path : String) :
    AnomalyDetector :=
  { model := { contamination := contamination, random_state := 42 }
    model_path := model_path }

/-- `AnomalyDetector.fit_predict(data)` (lines 24-33): logs, calls
`self.model.fit_predict(data)`, counts the -1 labels for the log, and
returns the labels unchanged.  The estimator's own behaviour is external to
the repository (sklearn), so it is passed in as `est`; the method adds no
validation or error path of its own. -/
def AnomalyDetector.fit_predict
    (est : IsoForest → List (List ℚ) → Except String (List ℤ))
    (d : AnomalyDetector) (data : List (List ℚ)) : Except String (List ℤ) :=
  est d.model data

/-- The on-disk store for anomaly models (`joblib.dump(self.model, path)`
stores the bare estimator). -/
abbrev AStore := List (String × IsoForest)

/-- `AnomalyDetector.load` (lines 46-52): if the path exists replace
`self.model` with the loaded estimator, otherwise only log a warning. -/
def AnomalyDetector.load (d : AnomalyDetector) (s : AStore) : AnomalyDetector :=
  match s.lookup d.model_path with
  | some m => { d with model := m }
  | none => d

/-! ## Detect-anomalies endpoint (`backend/api/__init__.py`, lines 218-230). -/

/-- An incident-shaped request object; the endpoint reads the columns
`latitude`, `longitude`, `severity`. -/
structure Incident where
  latitude : ℚ
  longitude : ℚ
  severity : ℚ
deriving DecidableEq, Inhabited

/-- `detect_anomalies(data)`: `if not data: return {"anomalies": []}`; else
build the `[latitude, longitude, severity]` feature matrix, run
`anomaly_detector.fit_predict(features)`, and echo back
`[data[i] for i in range(len(labels)) if labels[i] == -1]`.  The response
dict `{"anomalies": ...}` is modelled by the returned list. -/
def detect_anomalies
    (est : IsoForest → List (List ℚ) → Except String (List ℤ))
    (anomaly_detector : AnomalyDetector) (data : List Incident) :
    Except String (List Incident) :=
  if data = [] then Except.ok []
  else do
    let features := data.map (fun d => [d.latitude, d.longitude, d.severity])
    let labels ← AnomalyDetector.fit_predict est anomaly_detector features
    Except.ok
      (((List.range labels.length).filter (fun i => labels.getD i 0 = -1)).map
        (fun i => data.getD i default))

/-- `Except.isOk`, named locally. -/
def isOkE {ε α : Type} : Except ε α → Bool
  | .ok _ => true
  | .error _ => false

/-- A concrete configured kmeans model,
`HotspotClusteringModel("kmeans", {"n_clusters": 5})`. -/
def kmeansExample : HotspotClusteringModel :=
  { algorithm := "kmeans", params := { n_clusters := some 5 }
    model_path := "models/hotspot_model.joblib"
    eps_spatial := none, eps_temporal := none
    model := some (.KMeans 5) }

/-- A concrete configured dbscan model, `HotspotClusteringModel("dbscan")`
with default parameters. -/
def dbscanExample : HotspotClusteringModel :=
  { algorithm := "dbscan", params := {}
    model_path := "models/hotspot_model.joblib"
    eps_spatial := none, eps_temporal := none
    model := some (.DBSCAN (1 / 100) 5) }

/-! ### Claims about the risk engine -/

/-- C1 counterexample: at `calculate_risk_index(28.7041, 77.1025)` with
`hour = 23` and jitter `0` (a value in `[0,10)`), the returned level is
`"Low"`: the final score is `min(10 + 25 + 0, 100) = 35 ≤ 40`.  This refutes
the claim that the level is always `"High"` or `"Moderate"` and never
`"Low"`. -/
theorem C1_counterexample :
    (calculate_score (287041 / 10000) (771025 / 10000) 23 0).level = "Low" := by
  have hadj : temporalAdjustment 23 = (25, ["High risk: Late night hours"]) := by
    unfold temporalAdjustment
    norm_num
  have hfs : finalScore 23 0 = 35 := by
    unfold finalScore
    rw [hadj]
    dsimp only
    rw [min_eq_left (by norm_num)]
    norm_num
  show riskLevel (finalScore 23 0) = "Low"
  rw [hfs]
  unfold riskLevel
  norm_num

/-- C1 (amended): for the query `calculate_risk_index(28.7041, 77.1025)`
with `hour = 23` and any jitter in `[0,10)`, the returned level is
`"Moderate"` exactly when the jitter exceeds 5 and `"Low"` otherwise; it is
never `"High"`. -/
theorem C1_night_query_level (j : ℚ) (h0 : 0 ≤ j) (h1 : j < 10) :
    (calculate_score (287041 / 10000) (771025 / 10000) 23 j).level =
      (if 5 < j then "Moderate" else "Low") := by
  have hadj : temporalAdjustment 23 = (25, ["High risk: Late night hours"]) := by
    unfold temporalAdjustment
    norm_num
  have hfs : finalScore 23 j = 35 + j := by
    unfold finalScore
    rw [hadj]
    dsimp only
    rw [min_eq_left (by linarith)]
    ring
  show riskLevel (finalScore 23 j) = _
  rw [hfs]
  unfold riskLevel
  rw [if_neg (by intro h; simp only [gt_iff_lt] at h; linarith)]
  by_cases h5 : 5 < j
  · rw [if_pos (by simp only [gt_iff_lt]; linarith), if_pos h5]
  · push_neg at h5
    rw [if_neg (by intro h; simp only [gt_iff_lt] at h; linarith), if_neg (by linarith)]

/-- Witness for C1 (amended) at jitter 6. -/
theorem C1_night_query_level_witness :
    (calculate_score (287041 / 10000) (771025 / 10000) 23 6).level =
      (if (5 : ℚ) < 6 then "Moderate" else "Low") :=
  C1_night_query_level 6 (by norm_num) (by norm_num)

/-- C2: for every latitude, longitude, hour and jitter, the level is
`"High"` iff the final (capped) score exceeds 75, `"Moderate"` iff it is in
`(40, 75]`, and `"Low"` iff it is at most 40. -/
theorem C2_level_thresholds (lat lon : ℚ) (hour : ℕ) (j : ℚ) :
    ((calculate_score lat lon hour j).level = "High" ↔ 75 < finalScore hour j) ∧
    ((calculate_score lat lon hour j).level = "Moderate" ↔
        40 < finalScore hour j ∧ finalScore hour j ≤ 75) ∧
    ((calculate_score lat lon hour j).level = "Low" ↔ finalScore hour j ≤ 40) := by
  simpa [calculate_score] using riskLevel_spec (finalScore hour j)

/-- C3: for every latitude, longitude, hour and jitter in `[0,10)`, both the
returned (rounded) `risk_score` and the internal final score lie in
`[0,100]`. -/
theorem C3_score_in_bounds (lat lon : ℚ) (hour : ℕ) (j : ℚ)
    (h0 : 0 ≤ j) (h1 : j < 10) :
    (0 ≤ (calculate_score lat lon hour j).risk_score ∧
      (calculate_score lat lon hour j).risk_score ≤ 100) ∧
    (0 ≤ finalScore hour j ∧ finalScore hour j ≤ 100) := by
  have hadj : (0 : ℚ) ≤ (temporalAdjustment hour).1 := by
    unfold temporalAdjustment
    split_ifs <;> norm_num
  have hub : finalScore hour j ≤ 100 := min_le_right _ _
  have hlb : 0 ≤ finalScore hour j := by
    unfold finalScore
    exact le_min (by linarith) (by norm_num)
  have hr := round2_bounds (finalScore hour j) hlb hub
  exact ⟨by simpa [calculate_score] using hr, hlb, hub⟩

/-- Witness for C3 at lat 0, lon 0, hour 2, jitter 1. -/
theorem C3_score_in_bounds_witness :
    (0 ≤ (calculate_score 0 0 2 1).risk_score ∧
      (calculate_score 0 0 2 1).risk_score ≤ 100) ∧
    (0 ≤ finalScore 2 1 ∧ finalScore 2 1 ≤ 100) :=
  C3_score_in_bounds 0 0 2 1 (by norm_num) (by norm_num)

/-- C4 counterexample: at hour 23 the recorded temporal factor is
`"High risk: Late night hours"` (capital `L`), not the claimed
`"High risk: late night hours"`. -/
theorem C4_counterexample :
    (calculate_score 0 0 23 0).contributing_factors ≠
        ["High risk: late night hours"] ∧
      (calculate_score 0 0 23 0).contributing_factors =
        ["High risk: Late night hours"] := by
  refine ⟨?_, rfl⟩
  decide

/-- C4 (amended): for every hour in `[0,24)`, the temporal adjustment adds
exactly 25 and records `"High risk: Late night hours"` when
`hour ∈ [22,24) ∪ [0,4]`, adds exactly 10 and records
`"Moderate risk: Evening hours"` when `hour ∈ [18,22)`, and adds nothing and
records no factor otherwise. -/
theorem C4_temporal_adjustment (hour : ℕ) (h : hour < 24) (lat lon j : ℚ) :
    (((22 ≤ hour ∧ hour < 24) ∨ hour ≤ 4) →
        temporalAdjustment hour = (25, ["High risk: Late night hours"]) ∧
        (calculate_score lat lon hour j).contributing_factors =
          ["High risk: Late night hours"]) ∧
    ((18 ≤ hour ∧ hour < 22) →
        temporalAdjustment hour = (10, ["Moderate risk: Evening hours"]) ∧
        (calculate_score lat lon hour j).contributing_factors =
          ["Moderate risk: Evening hours"]) ∧
    (¬((22 ≤ hour ∧ hour < 24) ∨ hour ≤ 4) ∧ ¬(18 ≤ hour ∧ hour < 22) →
        temporalAdjustment hour = (0, []) ∧
        (calculate_score lat lon hour j).contributing_factors = []) := by
  interval_cases hour <;>
    simp [temporalAdjustment, calculate_score]

/-- Witness for C4 (amended) at hour 23. -/
theorem C4_temporal_adjustment_witness :
    (((22 ≤ 23 ∧ 23 < 24) ∨ 23 ≤ 4) →
        temporalAdjustment 23 = (25, ["High risk: Late night hours"]) ∧
        (calculate_score 0 0 23 0).contributing_factors =
          ["High risk: Late night hours"]) ∧
    ((18 ≤ 23 ∧ 23 < 22) →
        temporalAdjustment 23 = (10, ["Moderate risk: Evening hours"]) ∧
        (calculate_score 0 0 23 0).contributing_factors =
          ["Moderate risk: Evening hours"]) ∧
    (¬((22 ≤ 23 ∧ 23 < 24) ∨ 23 ≤ 4) ∧ ¬(18 ≤ 23 ∧ 23 < 22) →
        temporalAdjustment 23 = (0, []) ∧
        (calculate_score 0 0 23 0).contributing_factors = []) :=
  C4_temporal_adjustment 23 (by norm_num) 0 0 0

/-! ### Helper lemmas about the clustering engine -/

theorem pyLower_dbscan : pyLower "dbscan" = "dbscan" := by decide

theorem init_dbscan_defaults (path : String) :
    HotspotClusteringModel.init "dbscan" {} path =
      Except.ok
        { algorithm := "dbscan", params := {}, model_path := path
          eps_spatial := none, eps_temporal := none
          model := some (.DBSCAN (1 / 100) 5) } := by
  unfold HotspotClusteringModel.init
  dsimp only
  rw [pyLower_dbscan, if_pos rfl]
  rfl

/-! ### Claims about the clustering engine, anomaly detector and endpoint -/

/-- C5 counterexample: constructing a `HotspotClusteringModel` with
algorithm `"dbscan"` and an empty parameter dict (every key missing)
succeeds, with defaults `eps = 0.01`, `min_samples = 5` — it does not fail
with ConfigurationError (no such class exists in the repository). -/
theorem C5_counterexample :
    HotspotClusteringModel.init "dbscan" {} "models/hotspot_model.joblib" =
      Except.ok
        { algorithm := "dbscan", params := {}
          model_path := "models/hotspot_model.joblib"
          eps_spatial := none, eps_temporal := none
          model := some (.DBSCAN (1 / 100) 5) } :=
  init_dbscan_defaults "models/hotspot_model.joblib"

/-- C5 (amended): configuring the engine fails — with
`ValueError("Unsupported algorithm: ...")`, not ConfigurationError — exactly
when the lowercased algorithm tag is none of `dbscan`, `st-dbscan`,
`kmeans`; missing parameter keys never fail: defaults are substituted, e.g.
`dbscan` with an empty dict gets `eps = 0.01`, `min_samples = 5`. -/
theorem C5_config_validation (a : String) (p : Params) (path : String) :
    (isOkE (HotspotClusteringModel.init a p path) = true ↔
      pyLower a = "dbscan" ∨ pyLower a = "st-dbscan" ∨ pyLower a = "kmeans") ∧
    (¬(pyLower a = "dbscan" ∨ pyLower a = "st-dbscan" ∨ pyLower a = "kmeans") →
      HotspotClusteringModel.init a p path =
        Except.error ("Unsupported algorithm: " ++ pyLower a)) ∧
    HotspotClusteringModel.init "dbscan" {} path =
      Except.ok
        { algorithm := "dbscan", params := {}, model_path := path
          eps_spatial := none, eps_temporal := none
          model := some (.DBSCAN (1 / 100) 5) } := by
  refine ⟨?_, ?_, ?_⟩
  · unfold HotspotClusteringModel.init
    dsimp only
    split_ifs with h1 h2 h3 <;> simp_all [isOkE]
  · intro h
    push_neg at h
    unfold HotspotClusteringModel.init
    dsimp only
    rw [if_neg h.1, if_neg h.2.1, if_neg h.2.2]
  · exact init_dbscan_defaults path

/-- Witness for C5 (amended) at the unrecognized tag `"birch"`. -/
theorem C5_config_validation_witness :
    (isOkE (HotspotClusteringModel.init "birch" {} "p") = true ↔
      pyLower "birch" = "dbscan" ∨ pyLower "birch" = "st-dbscan" ∨
        pyLower "birch" = "kmeans") ∧
    (¬(pyLower "birch" = "dbscan" ∨ pyLower "birch" = "st-dbscan" ∨
        pyLower "birch" = "kmeans") →
      HotspotClusteringModel.init "birch" {} "p" =
        Except.error ("Unsupported algorithm: " ++ pyLower "birch")) ∧
    HotspotClusteringModel.init "dbscan" {} "p" =
      Except.ok
        { algorithm := "dbscan", params := {}, model_path := "p"
          eps_spatial := none, eps_temporal := none
          model := some (.DBSCAN (1 / 100) 5) } :=
  C5_config_validation "birch" {} "p"

/-- C6: saving a configured model and then loading from the same path
restores `algorithm`, `params` and the fitted estimator together, equal to
those before saving, for every algorithm tag and parameter mapping. -/
theorem C6_persist_restore_roundtrip (m m' : HotspotClusteringModel)
    (s : Store) (h : m'.model_path = m.model_path) :
    (m'.load (m.save s)).algorithm = m.algorithm ∧
    (m'.load (m.save s)).params = m.params ∧
    (m'.load (m.save s)).model = m.model := by
  unfold HotspotClusteringModel.load HotspotClusteringModel.save
  simp [List.lookup, h]

/-- Witness for C6: round-trip of a concrete kmeans model through an empty
store. -/
theorem C6_persist_restore_roundtrip_witness :
    ((kmeansExample.load (kmeansExample.save [])).algorithm =
        kmeansExample.algorithm ∧
      (kmeansExample.load (kmeansExample.save [])).params =
        kmeansExample.params ∧
      (kmeansExample.load (kmeansExample.save [])).model =
        kmeansExample.model) :=
  C6_persist_restore_roundtrip kmeansExample kmeansExample [] rfl

/-- C7: in spatio-temporal mode, `fit_predict` returns exactly the labels
of density-based clustering with radius `eps_spatial` and the same
`min_samples` on the rescaled points
`[lat, lon, time * (eps_spatial / eps_temporal)]`; and under that rescaling
a temporal gap of `eps_temporal` contributes exactly `eps_spatial` of
distance. -/
theorem C7_st_rescaling (es et : ℚ) (ms : ℕ) (data : List (ℚ × ℚ × ℚ))
    (t : ℚ) (het : 0 < et) :
    stFitPredict es et ms data = specSTDensity es et ms data ∧
    (t + et) * (es / et) - t * (es / et) = es := by
  have hne : et ≠ 0 := ne_of_gt het
  constructor
  · unfold stFitPredict specSTDensity
    dsimp only
    congr 1
    rw [List.map_map, List.zip_map', List.map_map]
    rfl
  · field_simp
    ring

/-- Witness for C7 on a three-point input. -/
theorem C7_st_rescaling_witness :
    stFitPredict (1 / 100) 2 2 [(0, 0, 0), (1 / 500, 0, 1), (5, 5, 0)] =
        specSTDensity (1 / 100) 2 2 [(0, 0, 0), (1 / 500, 0, 1), (5, 5, 0)] ∧
      ((3 : ℚ) + 2) * (1 / 100 / 2) - 3 * (1 / 100 / 2) = 1 / 100 :=
  C7_st_rescaling (1 / 100) 2 2 [(0, 0, 0), (1 / 500, 0, 1), (5, 5, 0)] 3
    (by norm_num)

/-- C8 counterexample: `AnomalyDetector.fit_predict` called on the empty
feature matrix returns whatever the underlying estimator returns — here
`ok []` — rather than failing with ValidationError; the method has no
validation or error path of its own (and no ValidationError class exists in
the repository). -/
theorem C8_counterexample :
    AnomalyDetector.fit_predict (fun _ _ => Except.ok [])
        (AnomalyDetector.init (1 / 20) "models/anomaly_model.joblib") [] =
      Except.ok [] := by
  rfl

/-- C8 (amended): `AnomalyDetector.fit_predict` performs no input
validation: for every estimator, detector state and feature matrix (the
empty one included) it returns exactly the underlying
`IsolationForest.fit_predict` result. -/
theorem C8_fit_predict_delegates
    (est : IsoForest → List (List ℚ) → Except String (List ℤ))
    (d : AnomalyDetector) (data : List (List ℚ)) :
    AnomalyDetector.fit_predict est d data = est d.model data := by
  rfl

/-- C9: when the configured path is absent from the store, `load` raises no
error and leaves the in-memory state unchanged, both for the clustering
engine (algorithm, params, estimator) and for the anomaly detector
(estimator). -/
theorem C9_load_missing_file (m : HotspotClusteringModel) (s : Store)
    (a : AnomalyDetector) (t : AStore)
    (h1 : s.lookup m.model_path = none)
    (h2 : t.lookup a.model_path = none) :
    m.load s = m ∧ a.load t = a := by
  constructor
  · unfold HotspotClusteringModel.load
    rw [h1]
  · unfold AnomalyDetector.load
    rw [h2]

/-- Witness for C9: empty stores contain no path. -/
theorem C9_load_missing_file_witness :
    dbscanExample.load ([] : Store) = dbscanExample ∧
      (AnomalyDetector.init (1 / 20) "models/anomaly_model.joblib").load
          ([] : AStore) =
        AnomalyDetector.init (1 / 20) "models/anomaly_model.joblib" :=
  C9_load_missing_file dbscanExample []
    (AnomalyDetector.init (1 / 20) "models/anomaly_model.joblib") [] rfl rfl

/-- C10: on an empty input list the detect-anomalies endpoint returns
`{"anomalies": []}` without error, and without invoking the anomaly
detector: the result is the same for every underlying estimator, including
ones that fail on every call. -/
theorem C10_empty_input
    (est : IsoForest → List (List ℚ) → Except String (List ℤ))
    (det : AnomalyDetector) :
    detect_anomalies est det [] = Except.ok [] := by
  rfl

end GeoCrime
